import Mathlib

/-!
Shallow embedding of the traffic-tracking engine of `src/main/radar.py`
(stratux-radar-display).

Conventions of the embedding:

* JSON numbers (Python floats/ints) are modelled as `ℚ`; Python's `round`
  (round-half-to-even on floats) is `pythonRound`.
* A Python dict entry that may be absent is an `Option` field; a raw radar
  message is a `RadarMsg` whose fields are all `Option` (a missing key read by
  the code raises `KeyError`, modelled as `err = some <key>`; mutations already
  applied before the raise persist, exactly as Python's in-place dict mutation).
* The track table `all_ac` is an association list `List (ℕ × Track)` keyed by
  `Icao_addr`; Python dict insertion order is preserved (new keys are appended,
  existing keys are updated in place via `setTrack`).
* The transcendental geometry (`calc_gps_distance`, `math.sin`, `math.cos`) is
  abstracted in the executable step function `new_traffic` as the parameters
  `Ctx.geo` and `Ctx.sincos`; the formulas themselves are embedded separately
  over `ℝ` (`calc_gps_distance`, `project_xy`) for the numeric claims.
* `radarbluez.speak` is fire-and-forget; an emitted call of `speaktraffic` is
  recorded as a `SpokenAlert` (the arguments `hdiff` and the optional o'clock
  direction).
-/

namespace StratuxRadar

/-- Python's `round` on an exact value: round half to even (banker's rounding),
used at `radar.py` lines 199, 220-221, 224, 227, 252. Written with the
executable `Rat.floor` (for a non-half value, nearest = floor of `x + 1/2`;
for an exact half, towards the even neighbour). -/
def pythonRound (x : ℚ) : ℤ :=
  if x - Rat.floor x = 1 / 2 then (if Rat.floor x % 2 = 0 then Rat.floor x else Rat.floor x + 1)
  else Rat.floor (x + 1 / 2)

/-- One aircraft record of the global dict `all_ac` (`radar.py` line 192 and
`new_traffic`). Creation sets exactly `gps_distance = 0` and
`was_spoken = False`; every other key appears only once the corresponding
assignment runs, hence the `Option` fields. -/
structure Track where
  gps_distance : ℚ
  was_spoken : Bool
  last_contact_timestamp : Option ℚ := none
  height : Option ℤ := none
  nspeed : Option ℚ := none
  vspeed : Option ℚ := none
  x : Option ℤ := none
  y : Option ℤ := none
  direction : Option ℚ := none
  nspeed_length : Option ℤ := none
  circradius : Option ℤ := none
  arcposition : Option ℕ := none
  deriving DecidableEq

/-- The fresh dict `{'gps_distance': 0, 'was_spoken': False}` of line 192. -/
def freshTrack : Track := { gps_distance := 0, was_spoken := false }

/-- The own-ship part of the global `situation` dict that `new_traffic`
reads or writes. -/
structure Situation where
  gps_active : Bool
  course : ℤ
  own_altitude : ℚ
  latitude : ℚ
  longitude : ℚ
  RadarRange : ℚ
  RadarLimits : ℚ
  deriving DecidableEq

/-- The mutable global state touched by `new_traffic` and
`display_and_cutoff`. -/
structure RadarState where
  situation : Situation
  all_ac : List (ℕ × Track)
  last_arcposition : ℕ
  aircraft_changed : Bool
  deriving DecidableEq

/-- A decoded radar-feed JSON message; every key is optional, reading an
absent key raises `KeyError`. -/
structure RadarMsg where
  RadarRange : Option ℚ := none
  RadarLimits : Option ℚ := none
  Icao_addr : Option ℕ := none
  Age : Option ℚ := none
  AgeLastAlt : Option ℚ := none
  Alt : Option ℚ := none
  Speed_valid : Option Bool := none
  Speed : Option ℚ := none
  Vvel : Option ℚ := none
  Position_valid : Option Bool := none
  Lat : Option ℚ := none
  Lng : Option ℚ := none
  Track : Option ℚ := none
  DistanceEstimated : Option ℚ := none

/-- One recorded call of `speaktraffic(hdiff, direction)` (`radar.py`
lines 152-161): `height` is the `hdiff` argument, `clock` the optional
`direction` argument. -/
structure SpokenAlert where
  height : ℤ
  clock : Option ℤ
  deriving DecidableEq

/-- The direction actually mentioned in the spoken text: `speaktraffic` only
appends the o'clock phrase under `if direction:`, which is falsy for `None`
and for `0`. -/
def speak_mentions_clock (a : SpokenAlert) : Option ℤ :=
  match a.clock with
  | none => none
  | some d => if d = 0 then none else some d

/-- Display geometry and the transcendental helpers, abstracted so the step
function stays executable: `geo ownLat ownLng lat lng` models
`calc_gps_distance(lat, lng)` (which reads `situation` for the own position),
returning `(distradius, angle)`; `sincos a` models
`(math.sin(math.radians(a)), math.cos(math.radians(a)))`. -/
structure Ctx where
  max_pixel : ℚ
  zerox : ℚ
  zeroy : ℚ
  geo : ℚ → ℚ → ℚ → ℚ → ℚ × ℚ
  sincos : ℚ → ℚ × ℚ

/-- Dict lookup `all_ac[icao]` / `icao in all_ac.keys()`. -/
def lookupTrack (k : ℕ) : List (ℕ × Track) → Option Track
  | [] => none
  | (k', t) :: rest => if k' = k then some t else lookupTrack k rest

/-- In-place update of the dict entry for key `k` (Python mutates the shared
`ac` dict object, so the table always holds the mutated record). -/
def setTrack (k : ℕ) (v : Track) : List (ℕ × Track) → List (ℕ × Track)
  | [] => []
  | (k', t) :: rest => if k' = k then (k', v) :: rest else (k', t) :: setTrack k v rest

/-- Advance of the shared `last_arcposition` pointer for a range-only track
(`radar.py` lines 255-257): add 210 mod 360, and advance once more if the
result lies in the excluded sector `ARCPOSITION_EXCLUDE_FROM = 130` ..
`ARCPOSITION_EXCLUDE_TO = 230` (both inclusive in the code's test). -/
def arc_advance (p : ℕ) : ℕ :=
  let a1 := (p + 210) % 360
  if 130 ≤ a1 ∧ a1 ≤ 230 then (a1 + 210) % 360 else a1

/-- The o'clock computation of `radar.py` lines 227-231 applied to
`res_angle = gps_angle - situation['course']`. -/
def oclock_calc (res_angle : ℚ) : ℤ :=
  let oc0 := pythonRound (res_angle / 30)
  let oc1 := if oc0 ≤ 0 then oc0 + 12 else oc0
  if oc1 > 12 then oc1 - 12 else oc1

/-- Result of processing the aircraft-shaped part of a message (`radar.py`
lines 195-269) for one record `ac0`: the mutated record, the `speaktraffic`
calls made, the new value of the global `last_arcposition`, and the key of an
uncaught `KeyError` if one was raised (mutations applied before the raise are
kept in `track`, as in Python). -/
structure AcResult where
  track : Track
  alerts : List SpokenAlert
  arc : ℕ
  err : Option String

/-- Lines 205-269 of `new_traffic`: the classification branch on
`Position_valid and gps_active`, applied to the record `ac4` whose shared
fields are already updated. `hgt` is the height computed at line 199, `alt`
the reported altitude (re-read by the zero test at line 247). -/
def classify_traffic (ctx : Ctx) (sit : Situation) (arc0 : ℕ)
    (is_new : Bool) (hgt : ℤ) (alt : ℚ) (ac4 : Track) (m : RadarMsg) : AcResult :=
  match m.Position_valid with
  | none => ⟨ac4, [], arc0, some "Position_valid"⟩
  | some pv =>
  if pv && sit.gps_active then
    -- ADS-B path: a previous mode-s classification has only `circradius`
    -- deleted (line 209); `arcposition` is left in the record.
    let ac5 := { ac4 with circradius := none }
    match m.Lat with
    | none => ⟨ac5, [], arc0, some "Lat"⟩
    | some lat =>
    match m.Lng with
    | none => ⟨ac5, [], arc0, some "Lng"⟩
    | some lng =>
    let g := ctx.geo sit.latitude sit.longitude lat lng
    let ac6 := { ac5 with gps_distance := g.1 }
    let ac7 := match m.Track with
      | some tr => { ac6 with direction := some (tr - (sit.course : ℚ)) }
      | none => ac6
    if g.1 ≤ sit.RadarRange ∧ |(hgt : ℚ)| ≤ sit.RadarLimits then
      let res_angle := g.2 - (sit.course : ℚ)
      let sc := ctx.sincos res_angle
      let ac8 := { ac7 with
        x := some (pythonRound (ctx.max_pixel / 2 * (sc.1 * g.1) / sit.RadarRange + ctx.zerox)),
        y := some (pythonRound (ctx.max_pixel / 2 * (-sc.2 * g.1) / sit.RadarRange + ctx.zeroy)) }
      let ac9 := match ac8.nspeed with
        | some ns =>
          let nlen := pythonRound (ctx.max_pixel / 2 * (ns * 60 / 3600) / sit.RadarRange)
          { ac8 with nspeed_length := some nlen }
        | none => ac8
      if g.1 ≤ sit.RadarRange / 2 then
        if ac9.was_spoken then ⟨ac9, [], arc0, none⟩
        else ⟨{ ac9 with was_spoken := true }, [⟨hgt, some (oclock_calc res_angle)⟩], arc0, none⟩
      else
        if sit.RadarRange * (3 / 4) ≤ g.1 then ⟨{ ac9 with was_spoken := false }, [], arc0, none⟩
        else ⟨ac9, [], arc0, none⟩
    else
      ⟨{ ac7 with x := some (-1), y := some (-1) }, [], arc0, none⟩
  else
    -- Mode-S (range-only) path.
    match m.DistanceEstimated with
    | none => ⟨ac4, [], arc0, some "DistanceEstimated"⟩
    | some de =>
    if de = 0 ∨ alt = 0 then ⟨ac4, [], arc0, none⟩
    else
      let distcirc := de / 1852
      let distx := pythonRound (ctx.max_pixel / 2 * distcirc / sit.RadarRange)
      let assign := is_new || ac4.circradius = none
      let ar := if assign then arc_advance arc0 else arc0
      let ac5 := if assign then { ac4 with arcposition := some (arc_advance arc0) } else ac4
      let ac6 := { ac5 with gps_distance := distcirc, circradius := some distx }
      if ac6.gps_distance ≤ sit.RadarRange / 2 then
        if ac6.was_spoken then ⟨ac6, [], ar, none⟩
        else ⟨{ ac6 with was_spoken := true }, [⟨hgt, none⟩], ar, none⟩
      else
        if sit.RadarRange * (3 / 4) < ac6.gps_distance then ⟨{ ac6 with was_spoken := false }, [], ar, none⟩
        else ⟨ac6, [], ar, none⟩

/-- Lines 195-269 of `new_traffic`: update one track record from an aircraft
report. `sit` is the current `situation`, `arc0` the current
`last_arcposition`, `is_new` whether the record was just created, `ac0` the
record looked up (or freshly inserted). Shared-field updates (lines 195-203)
happen here; the classification branch is `classify_traffic`. -/
def update_aircraft (ctx : Ctx) (now : ℚ) (sit : Situation) (arc0 : ℕ)
    (is_new : Bool) (ac0 : Track) (m : RadarMsg) : AcResult :=
  match m.Age with
  | none => ⟨ac0, [], arc0, some "Age"⟩
  | some age =>
  match m.AgeLastAlt with
  | none => ⟨ac0, [], arc0, some "AgeLastAlt"⟩
  | some ala =>
  let ac1 := { ac0 with
    last_contact_timestamp := some (if age ≤ ala then now - age else now - ala) }
  match m.Alt with
  | none => ⟨ac1, [], arc0, some "Alt"⟩
  | some alt =>
  let hgt : ℤ := pythonRound ((alt - sit.own_altitude) / 100)
  let ac2 := { ac1 with height := some hgt }
  match m.Speed_valid with
  | none => ⟨ac2, [], arc0, some "Speed_valid"⟩
  | some sv =>
  if sv then
    match m.Speed with
    | none => ⟨ac2, [], arc0, some "Speed"⟩
    | some sp =>
      match m.Vvel with
      | none => ⟨{ ac2 with nspeed := some sp }, [], arc0, some "Vvel"⟩
      | some vvl =>
        classify_traffic ctx sit arc0 is_new hgt alt
          { ac2 with nspeed := some sp, vspeed := some vvl } m
  else
    match m.Vvel with
    | none => ⟨ac2, [], arc0, some "Vvel"⟩
    | some vvl =>
      classify_traffic ctx sit arc0 is_new hgt alt { ac2 with vspeed := some vvl } m

/-- Result of one `new_traffic` callback invocation. -/
structure StepResult where
  state : RadarState
  alerts : List SpokenAlert
  err : Option String

/-- The `new_traffic` callback (`radar.py` lines 164-269). `now` is
`time.time()` at the call. -/
def new_traffic (ctx : Ctx) (now : ℚ) (s0 : RadarState) (m : RadarMsg) : StepResult :=
  let s := { s0 with aircraft_changed := true }
  if m.RadarRange.isSome || m.RadarLimits.isSome then
    -- range/limits control message (lines 172-183); both keys are read
    -- unconditionally, so a single-key message raises KeyError.
    match m.RadarRange with
    | none => ⟨s, [], some "RadarRange"⟩
    | some rr =>
      let s1 := if s.situation.RadarRange ≠ rr then { s with situation.RadarRange := rr } else s
      match m.RadarLimits with
      | none => ⟨s1, [], some "RadarLimits"⟩
      | some rl =>
        let s2 := if s.situation.RadarLimits ≠ rl then { s1 with situation.RadarLimits := rl } else s1
        let changed : Bool :=
          decide (s.situation.RadarRange ≠ rr) || decide (s.situation.RadarLimits ≠ rl)
        let s3 := if changed then { s2 with all_ac := [] } else s2
        ⟨s3, [], none⟩
  else
    match m.Icao_addr with
    | none => ⟨s, [], none⟩   -- steering message without aircraft content
    | some icao =>
      let is_new := (lookupTrack icao s0.all_ac).isNone
      let ac0 := (lookupTrack icao s0.all_ac).getD freshTrack
      let table0 := if is_new then s0.all_ac ++ [(icao, freshTrack)] else s0.all_ac
      let r := update_aircraft ctx now s0.situation s0.last_arcposition is_new ac0 m
      ⟨{ s with all_ac := setTrack icao r.track table0, last_arcposition := r.arc },
        r.alerts, r.err⟩

/-- RADAR_CUTOFF of `radar.py` line 57. -/
def RADAR_CUTOFF : ℚ := 29

/-- Whether the sweep of `display_and_cutoff` deletes a record:
`ac['last_contact_timestamp'] < cutoff` (line 405). -/
def staleQ (cutoff : ℚ) (p : ℕ × Track) : Bool :=
  match p.2.last_contact_timestamp with
  | some ts => decide (ts < cutoff)
  | none => false

/-- The cutoff sweep at the end of each `display_and_cutoff` iteration
(`radar.py` lines 401-410): `cutoff = time.time() - RADAR_CUTOFF`; every
record strictly older is removed and each removal sets `aircraft_changed`.
Reading a record that never got `last_contact_timestamp` would raise
`KeyError`, modelled as the error result. -/
def cutoff_sweep (now : ℚ) (s : RadarState) : Except String RadarState :=
  let cutoff := now - RADAR_CUTOFF
  if s.all_ac.all (fun p => p.2.last_contact_timestamp.isSome) then
    Except.ok { s with
      all_ac := s.all_ac.filter (fun p => !staleQ cutoff p),
      aircraft_changed := s.aircraft_changed || s.all_ac.any (staleQ cutoff) }
  else
    Except.error "last_contact_timestamp"

/-- A radar-feed message together with the wall-clock time of its arrival. -/
structure TimedMsg where
  now : ℚ
  msg : RadarMsg

/-- Run a sequence of radar-feed messages, recording each message alongside
the `new_traffic` result it produced. -/
def runTrace (ctx : Ctx) (s : RadarState) : List TimedMsg → List (TimedMsg × StepResult)
  | [] => []
  | tm :: rest =>
    let r := new_traffic ctx tm.now s tm.msg
    (tm, r) :: runTrace ctx r.state rest

/-! Concrete fixtures used by counterexamples and witnesses. -/

/-- A display context with a 128-pixel extent centred at (64, 64); the
abstract geometry returns the target `Lat` as the distance and bearing 0. -/
def ctx0 : Ctx :=
  { max_pixel := 128, zerox := 64, zeroy := 64,
    geo := fun _ _ lat _ => (lat, 0), sincos := fun _ => (0, 1) }

/-- Own ship at the origin, course 0, GPS valid, range 4 nm, limits 10000 ft. -/
def sit0 : Situation :=
  { gps_active := true, course := 0, own_altitude := 0, latitude := 0,
    longitude := 0, RadarRange := 4, RadarLimits := 10000 }

/-- Initial state: empty track table. -/
def st0 : RadarState :=
  { situation := sit0, all_ac := [], last_arcposition := 0, aircraft_changed := false }

/-- A well-formed ADS-B report for aircraft `icao`: valid position, `Lat = d`
(which `ctx0.geo` turns into distance `d`, bearing 0). -/
def adsbMsg (icao : ℕ) (d : ℚ) : RadarMsg :=
  { Icao_addr := some icao, Age := some 0, AgeLastAlt := some 0, Alt := some 0,
    Speed_valid := some false, Vvel := some 0, Position_valid := some true,
    Lat := some d, Lng := some 0 }

/-- A well-formed Mode-S report for aircraft `icao`: no valid position,
estimated distance `de` metres, altitude `alt` feet. -/
def modesMsg (icao : ℕ) (de alt : ℚ) : RadarMsg :=
  { Icao_addr := some icao, Age := some 0, AgeLastAlt := some 0, Alt := some alt,
    Speed_valid := some false, Vvel := some 0, Position_valid := some false,
    DistanceEstimated := some de }

/-- Own ship on course 359 with range 5 nm; `geo` reports every target at
distance 2 nm, bearing -45 degrees (a target slightly left of dead ahead,
within the codomain of `calc_gps_distance`). -/
def sit8 : Situation :=
  { gps_active := true, course := 359, own_altitude := 0, latitude := 0,
    longitude := 0, RadarRange := 5, RadarLimits := 10000 }

/-- Context for the o'clock bug: geometry gives `(2, -45)` for every target. -/
def ctx8 : Ctx :=
  { max_pixel := 128, zerox := 64, zeroy := 64,
    geo := fun _ _ _ _ => (2, -45), sincos := fun _ => (0, 1) }

/-- Initial state for the o'clock bug scenario. -/
def st8 : RadarState :=
  { situation := sit8, all_ac := [], last_arcposition := 0, aircraft_changed := false }

/-- A track already inside the table before a control message arrives. -/
def tC2 : Track :=
  { gps_distance := 1, was_spoken := false, last_contact_timestamp := some 0,
    height := some 0, vspeed := some 0 }

/-- State with range 5 and one existing track, about to receive a control
message. -/
def stC2 : RadarState :=
  { situation := { sit0 with RadarRange := 5 }, all_ac := [(5, tC2)],
    last_arcposition := 0, aircraft_changed := false }

/-- The control message `{RadarRange: 10}` of the spec scenario - carrying
only one of the two range/limits keys. -/
def mC2 : RadarMsg := { RadarRange := some 10 }

/-- A control message carrying both keys, changing the range. -/
def mW2 : RadarMsg := { RadarRange := some 9, RadarLimits := some 10000 }

/-- A track currently carrying the range-only (Mode-S) classification. -/
def tModeS : Track :=
  { gps_distance := 2, was_spoken := false, last_contact_timestamp := some 0,
    height := some 0, vspeed := some 0, circradius := some 32, arcposition := some 60 }

/-- State holding the Mode-S-classified track `tModeS` under id 4. -/
def stC4 : RadarState :=
  { situation := sit0, all_ac := [(4, tModeS)], last_arcposition := 60,
    aircraft_changed := false }

/-- A track currently carrying the positional (ADS-B) classification. -/
def tAdsb : Track :=
  { gps_distance := 2, was_spoken := false, last_contact_timestamp := some 0,
    height := some 0, vspeed := some 0, x := some 64, y := some 32,
    direction := some 45 }

/-- Message sequence: an ADS-B report for id 1 followed by a Mode-S report
for the same id (2 nm estimated distance = 3704 m, altitude 1000 ft). -/
def seqC3 : List TimedMsg := [⟨0, adsbMsg 1 2⟩, ⟨0, modesMsg 1 3704 1000⟩]

/-- A track last heard 10 s after epoch: stale at `now = 100` (cutoff 71). -/
def tStale : Track :=
  { gps_distance := 3, was_spoken := false, last_contact_timestamp := some 10,
    height := some 1, vspeed := some 0 }

/-- A track last heard 95 s after epoch: fresh at `now = 100`. -/
def tFresh : Track :=
  { gps_distance := 1, was_spoken := false, last_contact_timestamp := some 95,
    height := some 2, vspeed := some 0 }

/-- A state with one stale and one fresh track. -/
def stC7 : RadarState :=
  { situation := sit0, all_ac := [(1, tStale), (2, tFresh)], last_arcposition := 0,
    aircraft_changed := false }

/-- The fields whose presence the eviction sweep and the draw routine rely
on, besides the always-present `gps_distance` and `was_spoken`. -/
abbrev trackComplete (t : Track) : Prop :=
  t.last_contact_timestamp.isSome ∧ t.height.isSome ∧ t.vspeed.isSome

/-- Field-completeness of a whole track table. -/
abbrev tracksComplete (l : List (ℕ × Track)) : Prop := ∀ p ∈ l, trackComplete p.2

/-- Well-formed aircraft report: if the message carries `Icao_addr` it also
carries the keys the code reads unconditionally before the classification
branch (`Age`, `AgeLastAlt`, `Alt`, `Speed_valid`, `Vvel` - and `Speed` when
`Speed_valid` is true). -/
abbrev wfAircraftMsg (m : RadarMsg) : Prop :=
  m.Icao_addr.isSome →
    m.Age.isSome ∧ m.AgeLastAlt.isSome ∧ m.Alt.isSome ∧ m.Speed_valid.isSome ∧
    (m.Speed_valid = some true → m.Speed.isSome) ∧ m.Vvel.isSome

/-- Message sequence driving the hysteresis counterexample: distances
2 nm (alert), 3 nm (= three-quarters of range 4, resets), 2 nm (alert
again). -/
def seqC1 : List TimedMsg := [⟨0, adsbMsg 1 2⟩, ⟨0, adsbMsg 1 3⟩, ⟨0, adsbMsg 1 2⟩]

/-- A track whose alert was already spoken. -/
def tSpokenW : Track :=
  { gps_distance := 1, was_spoken := true, last_contact_timestamp := some 0,
    height := some 0, vspeed := some 0 }

/-- State holding the already-spoken track under id 9. -/
def stW1 : RadarState :=
  { situation := sit0, all_ac := [(9, tSpokenW)], last_arcposition := 0,
    aircraft_changed := false }

/-- A single further ADS-B report for id 9 at 1 nm. -/
def seqW1 : List TimedMsg := [⟨0, adsbMsg 9 1⟩]

/-- The id-9 track after processing `seqW1` from `stW1`. -/
def tAfterW : Track :=
  { gps_distance := 1, was_spoken := true, last_contact_timestamp := some 0,
    height := some 0, vspeed := some 0, x := some 64, y := some 48 }

/-! Real-valued geometry for the screen projection (radar.py lines 129-149 and
216-221).  The transcendental part of `new_traffic` is modelled here directly
over `ℝ`, since the source computes with `math.sin`/`math.cos`/`math.atan`. -/

/-- `radians_rel` (lines 129-134): normalise an angle into `(-180, 180]` and
convert to radians. -/
noncomputable def radians_rel (angle : ℝ) : ℝ :=
  let a1 := if 180 < angle then angle - 360 else angle
  let a2 := if a1 ≤ -180 then a1 + 360 else a1
  a2 * Real.pi / 180

/-- `calc_gps_distance` (lines 137-149): returns `(distance in nm, angle in
degrees)` of the target relative to own position. -/
noncomputable def calc_gps_distance (sitLat sitLng lat lng : ℝ) : ℝ × ℝ :=
  let radius_earth : ℝ := 6371008.8
  let avglat := radians_rel ((sitLat + lat) / 2)
  let distlat := radians_rel (lat - sitLat) * radius_earth / 1852
  let distlng := radians_rel (lng - sitLng) * radius_earth / 1852 * |Real.cos avglat|
  let distradius := Real.sqrt (distlat * distlat + distlng * distlng)
  let angle :=
    if distlat < 0 then (Real.pi - Real.arctan (distlng / -distlat)) * 180 / Real.pi
    else if 0 < distlat then -Real.arctan (distlng / -distlat) * 180 / Real.pi
    else 0
  (distradius, angle)

/-- Python 3 `round` over `ℝ`: banker's rounding at exact halves. -/
noncomputable def pythonRoundR (x : ℝ) : ℤ :=
  if Int.fract x = 1 / 2 then (if ⌊x⌋ % 2 = 0 then ⌊x⌋ else ⌊x⌋ + 1) else round x

/-- Lines 216-221: the stored screen coordinates for a positional update, as a
function of display extent `K = max_pixel`, screen centre, configured range,
computed gps distance and course-relative angle. -/
noncomputable def project_xy (K zerox zeroy range gps_rad res_angle : ℝ) : ℤ × ℤ :=
  (pythonRoundR (K / 2 * (Real.sin (res_angle * Real.pi / 180) * gps_rad) / range + zerox),
   pythonRoundR (K / 2 * (-Real.cos (res_angle * Real.pi / 180) * gps_rad) / range + zeroy))

/-! Theorems. -/

set_option maxRecDepth 8000 in
/-- C6: arc-position assignment. For every value of the shared rotating
pointer, the advance of 210 degrees modulo 360 with a single conditional
re-advance (a) is exactly the code's `arc_advance`, (b) never lands inside
the excluded sector [130, 230), and (c) yields a pointer again below 360, so
the property holds along every sequence of assignments from every initial
pointer value; in particular the single re-advance always suffices to escape
the sector. -/
theorem arc_advance_spec (p : ℕ) :
    arc_advance p =
      (if 130 ≤ (p + 210) % 360 ∧ (p + 210) % 360 ≤ 230
        then ((p + 210) % 360 + 210) % 360 else (p + 210) % 360) ∧
    ¬(130 ≤ arc_advance p ∧ arc_advance p < 230) ∧
    arc_advance p < 360 := by
  have key : ∀ a : ℕ, a < 360 →
      ¬(130 ≤ (if 130 ≤ a ∧ a ≤ 230 then (a + 210) % 360 else a) ∧
          (if 130 ≤ a ∧ a ≤ 230 then (a + 210) % 360 else a) < 230) ∧
        (if 130 ≤ a ∧ a ≤ 230 then (a + 210) % 360 else a) < 360 := by decide
  have ha : (p + 210) % 360 < 360 := Nat.mod_lt _ (by norm_num)
  exact ⟨rfl, (key _ ha).1, (key _ ha).2⟩

/-- C8 (code bug): the o'clock normalisation of `radar.py` lines 227-231
only corrects one wrap. With own course 359 and computed bearing -45 (a
target slightly left of dead ahead, distance 2 nm at range 5 nm, so an alert
fires), `res_angle = -404` and the spoken clock position is -1, outside
1..12; with course 350 and bearing -10 (`res_angle = -360`, target dead
ahead) the clock position is 0, which `speaktraffic` then silently drops
(`if direction:` is falsy at 0) instead of speaking 12 o'clock. -/
theorem oclock_out_of_range_bug :
    oclock_calc (-45 - 359) = -1 ∧
    (new_traffic ctx8 0 st8 (adsbMsg 2 0)).alerts = [⟨0, some (-1)⟩] ∧
    speak_mentions_clock ⟨0, some (-1)⟩ = some (-1) ∧
    oclock_calc (-10 - 350) = 0 ∧
    speak_mentions_clock ⟨0, some 0⟩ = none ∧
    ¬(1 ≤ (-1 : ℤ) ∧ (-1 : ℤ) ≤ 12) := by
  with_unfolding_all decide

/-- C2 counterexample: the control message `{RadarRange: 10}` (only one of
the two keys, as in the spec scenario) against current range 5 does NOT
empty the track table: the code reads `traffic['RadarLimits']`
unconditionally, so after applying the new range it raises `KeyError` and
returns before the `all_ac.clear()`. -/
theorem range_control_single_key_counterexample :
    (new_traffic ctx0 0 stC2 mC2).err = some "RadarLimits" ∧
    (new_traffic ctx0 0 stC2 mC2).state.situation.RadarRange = 10 ∧
    (new_traffic ctx0 0 stC2 mC2).state.all_ac = [(5, tC2)] ∧
    (new_traffic ctx0 0 stC2 mC2).state.all_ac ≠ [] := by
  with_unfolding_all decide

/-- C2 (amended): for every control message carrying BOTH `RadarRange` and
`RadarLimits`, the ingest applies both values to the shared situation,
empties the track table exactly when one of them changed, makes no spoken
alert and raises no error - the message is never treated as aircraft data.
(A message carrying only one key instead raises an uncaught `KeyError`:
with only `RadarRange` the new range is applied but the table is never
cleared; see the counterexample.) -/
theorem range_control_both_keys (ctx : Ctx) (now : ℚ) (s : RadarState) (m : RadarMsg)
    (rr rl : ℚ) (h1 : m.RadarRange = some rr) (h2 : m.RadarLimits = some rl) :
    (new_traffic ctx now s m).err = none ∧
    (new_traffic ctx now s m).alerts = [] ∧
    (new_traffic ctx now s m).state.situation.RadarRange = rr ∧
    (new_traffic ctx now s m).state.situation.RadarLimits = rl ∧
    (new_traffic ctx now s m).state.all_ac =
      (if s.situation.RadarRange = rr ∧ s.situation.RadarLimits = rl then s.all_ac else []) := by
  by_cases hA : s.situation.RadarRange = rr <;> by_cases hB : s.situation.RadarLimits = rl <;>
    simp [new_traffic, h1, h2, hA, hB]

/-- Plumbing: with the shared fields present (and speed invalid), processing
an aircraft report is the classification branch applied to the record with
the shared fields updated. -/
lemma update_aircraft_classify_eq (ctx : Ctx) (now : ℚ) (sit : Situation) (arc0 : ℕ)
    (is_new : Bool) (ac0 : Track) (m : RadarMsg) (age ala alt vv : ℚ)
    (hAge : m.Age = some age) (hALA : m.AgeLastAlt = some ala) (hAlt : m.Alt = some alt)
    (hSV : m.Speed_valid = some false) (hVv : m.Vvel = some vv) :
    update_aircraft ctx now sit arc0 is_new ac0 m =
      classify_traffic ctx sit arc0 is_new (pythonRound ((alt - sit.own_altitude) / 100)) alt
        { ac0 with
          last_contact_timestamp := some (if age ≤ ala then now - age else now - ala),
          height := some (pythonRound ((alt - sit.own_altitude) / 100)),
          vspeed := some vv } m := by
  simp only [update_aircraft, hAge, hALA, hAlt, hSV, hVv, Bool.false_eq_true, if_false]

/-- On the positional path the resulting record never carries `circradius`,
`arcposition` is untouched, and the shared arc pointer does not move. -/
lemma classify_adsb_fields (ctx : Ctx) (sit : Situation) (arc0 : ℕ) (is_new : Bool)
    (hgt : ℤ) (alt : ℚ) (ac4 : Track) (m : RadarMsg)
    (hPV : m.Position_valid = some true) (hgps : sit.gps_active = true) :
    (classify_traffic ctx sit arc0 is_new hgt alt ac4 m).track.circradius = none ∧
    (classify_traffic ctx sit arc0 is_new hgt alt ac4 m).track.arcposition = ac4.arcposition ∧
    (classify_traffic ctx sit arc0 is_new hgt alt ac4 m).arc = arc0 := by
  rcases hLat : m.Lat with _ | lat <;>
  rcases hLng : m.Lng with _ | lng <;>
  rcases hTr : m.Track with _ | tr <;>
  rcases hns : ac4.nspeed with _ | ns <;>
  simp [classify_traffic, hPV, hgps, hLat, hLng, hTr, hns, apply_ite AcResult.track,
    apply_ite Track.circradius, apply_ite Track.arcposition, apply_ite AcResult.arc, ite_self]

/-- C4 counterexample: an ADS-B update (valid position, own GPS valid) on a
track previously classified Mode-S deletes `circradius` but NOT
`arcposition` (line 209 deletes only the one key), so the range-only fields
are not "both gone" as the claim states. -/
theorem forward_clearing_arcposition_counterexample :
    (lookupTrack 4 (new_traffic ctx0 0 stC4 (adsbMsg 4 2)).state.all_ac).map Track.circradius =
      some none ∧
    (lookupTrack 4 (new_traffic ctx0 0 stC4 (adsbMsg 4 2)).state.all_ac).map Track.arcposition =
      some (some 60) := by
  with_unfolding_all decide

/-- C4 (amended): an update carrying a valid position with own-ship GPS valid
leaves the track without `circradius` (the key on which the renderer and the
re-classification logic test the range-only classification); `arcposition`
however is not deleted and keeps its previous value. Holds for every track
and every such message whose shared fields are present, even if the message
then lacks `Lat`/`Lng` (the deletion at line 209 precedes those reads). -/
theorem positional_update_clears_circradius (ctx : Ctx) (now : ℚ) (sit : Situation)
    (arc0 : ℕ) (is_new : Bool) (ac0 : Track) (m : RadarMsg) (age ala alt vv : ℚ)
    (hAge : m.Age = some age) (hALA : m.AgeLastAlt = some ala) (hAlt : m.Alt = some alt)
    (hSV : m.Speed_valid = some false) (hVv : m.Vvel = some vv)
    (hPV : m.Position_valid = some true) (hgps : sit.gps_active = true) :
    (update_aircraft ctx now sit arc0 is_new ac0 m).track.circradius = none ∧
    (update_aircraft ctx now sit arc0 is_new ac0 m).track.arcposition = ac0.arcposition := by
  rw [update_aircraft_classify_eq ctx now sit arc0 is_new ac0 m age ala alt vv
    hAge hALA hAlt hSV hVv]
  refine ⟨(classify_adsb_fields _ _ _ _ _ _ _ _ hPV hgps).1, ?_⟩
  exact (classify_adsb_fields _ _ _ _ _ _ _ _ hPV hgps).2.1

/-- Witness for `positional_update_clears_circradius`: the Mode-S-classified
fixture track receives a concrete ADS-B report. -/
theorem positional_update_clears_circradius_witness :
    ((adsbMsg 4 2).Position_valid = some true ∧ sit0.gps_active = true) ∧
    ((update_aircraft ctx0 0 sit0 60 false tModeS (adsbMsg 4 2)).track.circradius = none ∧
     (update_aircraft ctx0 0 sit0 60 false tModeS (adsbMsg 4 2)).track.arcposition =
       tModeS.arcposition) :=
  ⟨⟨rfl, rfl⟩,
    positional_update_clears_circradius ctx0 0 sit0 60 false tModeS (adsbMsg 4 2)
      0 0 0 0 rfl rfl rfl rfl rfl rfl rfl⟩

/-- C3 counterexample: after an ADS-B update (x present, no circradius) a
Mode-S update for the same track sets `circradius`/`arcposition` without
removing `x`/`y`/`direction`, so the track ends up with BOTH classifications
present, contradicting the exactly-one invariant. -/
theorem classification_exclusivity_counterexample :
    (runTrace ctx0 st0 seqC3).map
        (fun p => (lookupTrack 1 p.2.state.all_ac).map
          (fun t => (t.x.isSome, t.circradius.isSome))) =
      [some (true, false), some (true, true)] := by
  with_unfolding_all decide

/-- C3 (amended): the positional path clears `circradius` (see
`positional_update_clears_circradius`), but the range-only path does not
clear the positional fields: a Mode-S update applied to any track leaves
`x`, `y` and `direction` exactly as they were while setting the range-only
classification (`gps_distance = DistanceEstimated/1852` and the projected
`circradius`), so a previously ADS-B track carries both field groups after
it; `gps_distance` and `was_spoken` are present on every track from
creation. The renderer disambiguates on the presence of `circradius`. -/
theorem modes_update_keeps_positional_fields (ctx : Ctx) (now : ℚ) (sit : Situation)
    (arc0 : ℕ) (is_new : Bool) (ac0 : Track) (m : RadarMsg) (age ala alt vv de : ℚ)
    (hAge : m.Age = some age) (hALA : m.AgeLastAlt = some ala) (hAlt : m.Alt = some alt)
    (hSV : m.Speed_valid = some false) (hVv : m.Vvel = some vv)
    (hPV : m.Position_valid = some false)
    (hDE : m.DistanceEstimated = some de) (hde : de ≠ 0) (halt : alt ≠ 0) :
    (update_aircraft ctx now sit arc0 is_new ac0 m).track.x = ac0.x ∧
    (update_aircraft ctx now sit arc0 is_new ac0 m).track.y = ac0.y ∧
    (update_aircraft ctx now sit arc0 is_new ac0 m).track.direction = ac0.direction ∧
    (update_aircraft ctx now sit arc0 is_new ac0 m).track.gps_distance = de / 1852 ∧
    (update_aircraft ctx now sit arc0 is_new ac0 m).track.circradius =
      some (pythonRound (ctx.max_pixel / 2 * (de / 1852) / sit.RadarRange)) ∧
    (update_aircraft ctx now sit arc0 is_new ac0 m).err = none := by
  have hz : ¬(de = 0 ∨ alt = 0) := by
    rintro (h | h) <;> [exact hde h; exact halt h]
  simp only [update_aircraft, hAge, hALA, hAlt, hSV, hVv, Bool.false_eq_true, if_false,
    classify_traffic, hPV, Bool.false_and, hDE]
  rw [if_neg hz]
  repeat' split <;> first
  | rfl
  | simp

/-- Witness for `modes_update_keeps_positional_fields`: the ADS-B-classified
fixture track receives a concrete Mode-S report. -/
theorem modes_update_keeps_positional_fields_witness :
    ((modesMsg 1 3704 1000).Position_valid = some false ∧ (3704 : ℚ) ≠ 0 ∧ (1000 : ℚ) ≠ 0) ∧
    ((update_aircraft ctx0 0 sit0 0 false tAdsb (modesMsg 1 3704 1000)).track.x = tAdsb.x ∧
     (update_aircraft ctx0 0 sit0 0 false tAdsb (modesMsg 1 3704 1000)).track.y = tAdsb.y ∧
     (update_aircraft ctx0 0 sit0 0 false tAdsb (modesMsg 1 3704 1000)).track.direction =
       tAdsb.direction ∧
     (update_aircraft ctx0 0 sit0 0 false tAdsb (modesMsg 1 3704 1000)).track.gps_distance =
       3704 / 1852 ∧
     (update_aircraft ctx0 0 sit0 0 false tAdsb (modesMsg 1 3704 1000)).track.circradius =
       some (pythonRound (ctx0.max_pixel / 2 * (3704 / 1852) / sit0.RadarRange)) ∧
     (update_aircraft ctx0 0 sit0 0 false tAdsb (modesMsg 1 3704 1000)).err = none) :=
  ⟨⟨rfl, by norm_num, by norm_num⟩,
    modes_update_keeps_positional_fields ctx0 0 sit0 0 false tAdsb (modesMsg 1 3704 1000)
      0 0 1000 0 3704 rfl rfl rfl rfl rfl rfl rfl (by norm_num) (by norm_num)⟩

/-- C5 counterexample: a Mode-S report with `DistanceEstimated = 0` for a
previously unseen id 7 does NOT leave the table untouched: the record is
created and its shared fields are filled in before the zero test at line 247
returns, so a new track exists afterwards. -/
theorem modes_zero_distance_creates_track_counterexample :
    lookupTrack 7 (new_traffic ctx0 100 st0 (modesMsg 7 0 5000)).state.all_ac =
      some { gps_distance := 0, was_spoken := false, last_contact_timestamp := some 100,
             height := some 50, vspeed := some 0 } ∧
    lookupTrack 7 st0.all_ac = none := by
  with_unfolding_all decide

/-- C5 (amended): on the range-only path, a report whose estimated distance
or altitude is zero skips only the classification and alert logic: the
track's classification fields (`gps_distance`, `circradius`, `arcposition`),
its alert state, the positional fields and the shared arc pointer are left
untouched and no alert or error is produced - but the shared fields
(`last_contact_timestamp`, `height`, `vspeed`) are still updated, and a
previously unseen id still gets a fresh record created (see the
counterexample). -/
theorem modes_zero_distance_skips_classification (ctx : Ctx) (now : ℚ) (sit : Situation)
    (arc0 : ℕ) (is_new : Bool) (ac0 : Track) (m : RadarMsg) (age ala alt vv : ℚ) (pv : Bool)
    (de : ℚ)
    (hAge : m.Age = some age) (hALA : m.AgeLastAlt = some ala) (hAlt : m.Alt = some alt)
    (hSV : m.Speed_valid = some false) (hVv : m.Vvel = some vv)
    (hPV : m.Position_valid = some pv) (hpath : (pv && sit.gps_active) = false)
    (hDE : m.DistanceEstimated = some de) (hzero : de = 0 ∨ alt = 0) :
    (update_aircraft ctx now sit arc0 is_new ac0 m).track =
      { ac0 with
        last_contact_timestamp := some (if age ≤ ala then now - age else now - ala),
        height := some (pythonRound ((alt - sit.own_altitude) / 100)),
        vspeed := some vv } ∧
    (update_aircraft ctx now sit arc0 is_new ac0 m).alerts = [] ∧
    (update_aircraft ctx now sit arc0 is_new ac0 m).arc = arc0 ∧
    (update_aircraft ctx now sit arc0 is_new ac0 m).err = none := by
  simp only [update_aircraft, hAge, hALA, hAlt, hSV, hVv, Bool.false_eq_true, if_false,
    classify_traffic, hPV, hpath, hDE]
  rw [if_pos hzero]
  exact ⟨rfl, rfl, rfl, rfl⟩

/-- Witness for `modes_zero_distance_skips_classification`: an existing track
receives a Mode-S report with a zero estimated distance. -/
theorem modes_zero_distance_skips_classification_witness :
    (((false : Bool) && sit0.gps_active) = false ∧ ((0 : ℚ) = 0 ∨ (5000 : ℚ) = 0)) ∧
    ((update_aircraft ctx0 100 sit0 9 false tAdsb (modesMsg 7 0 5000)).track =
       { tAdsb with
         last_contact_timestamp := some (if (0 : ℚ) ≤ 0 then 100 - 0 else 100 - 0),
         height := some (pythonRound ((5000 - sit0.own_altitude) / 100)),
         vspeed := some 0 } ∧
     (update_aircraft ctx0 100 sit0 9 false tAdsb (modesMsg 7 0 5000)).alerts = [] ∧
     (update_aircraft ctx0 100 sit0 9 false tAdsb (modesMsg 7 0 5000)).arc = 9 ∧
     (update_aircraft ctx0 100 sit0 9 false tAdsb (modesMsg 7 0 5000)).err = none) :=
  ⟨⟨rfl, Or.inl rfl⟩,
    modes_zero_distance_skips_classification ctx0 100 sit0 9 false tAdsb (modesMsg 7 0 5000)
      0 0 5000 0 false 0 rfl rfl rfl rfl rfl rfl rfl rfl (Or.inl rfl)⟩

/-- Witness for `range_control_both_keys` at the fixture control message. -/
theorem range_control_both_keys_witness :
    (mW2.RadarRange = some 9 ∧ mW2.RadarLimits = some 10000) ∧
    ((new_traffic ctx0 0 stC2 mW2).err = none ∧
     (new_traffic ctx0 0 stC2 mW2).alerts = [] ∧
     (new_traffic ctx0 0 stC2 mW2).state.situation.RadarRange = 9 ∧
     (new_traffic ctx0 0 stC2 mW2).state.situation.RadarLimits = 10000 ∧
     (new_traffic ctx0 0 stC2 mW2).state.all_ac =
       (if stC2.situation.RadarRange = 9 ∧ stC2.situation.RadarLimits = 10000
         then stC2.all_ac else [])) :=
  ⟨⟨rfl, rfl⟩, range_control_both_keys ctx0 0 stC2 mW2 9 10000 rfl rfl⟩

/-- Every member of `setTrack k v l` is either the new record or an old
member. -/
lemma setTrack_mem {k : ℕ} {v : Track} {l : List (ℕ × Track)} {p : ℕ × Track}
    (hp : p ∈ setTrack k v l) : p.2 = v ∨ p ∈ l := by
  induction l with
  | nil => simp [setTrack] at hp
  | cons q rest ih =>
    obtain ⟨k', t⟩ := q
    by_cases hk : k' = k
    · rw [setTrack, if_pos hk] at hp
      rcases List.mem_cons.1 hp with h | h
      · left; rw [h]
      · right; exact List.mem_cons_of_mem _ h
    · rw [setTrack, if_neg hk] at hp
      rcases List.mem_cons.1 hp with h | h
      · right; rw [h]; exact List.mem_cons_self _ _
      · rcases ih h with h' | h'
        · left; exact h'
        · right; exact List.mem_cons_of_mem _ h'

/-- Updating the entry just appended for an unseen key rewrites exactly that
entry. -/
lemma setTrack_append_of_lookup_none {k : ℕ} {v t0 : Track} {l : List (ℕ × Track)}
    (h : lookupTrack k l = none) :
    setTrack k v (l ++ [(k, t0)]) = l ++ [(k, v)] := by
  induction l with
  | nil => simp [setTrack]
  | cons q rest ih =>
    obtain ⟨k', t⟩ := q
    rw [lookupTrack] at h
    by_cases hk : k' = k
    · rw [if_pos hk] at h; exact absurd h (by simp)
    · rw [if_neg hk] at h
      simp only [List.cons_append, setTrack, if_neg hk, List.append_eq]
      rw [ih h]

/-- The classification branch never changes the shared fields
`last_contact_timestamp`, `height`, `vspeed`. -/
lemma classify_keeps_shared (ctx : Ctx) (sit : Situation) (arc0 : ℕ) (is_new : Bool)
    (hgt : ℤ) (alt : ℚ) (ac4 : Track) (m : RadarMsg) :
    (classify_traffic ctx sit arc0 is_new hgt alt ac4 m).track.last_contact_timestamp =
      ac4.last_contact_timestamp ∧
    (classify_traffic ctx sit arc0 is_new hgt alt ac4 m).track.height = ac4.height ∧
    (classify_traffic ctx sit arc0 is_new hgt alt ac4 m).track.vspeed = ac4.vspeed := by
  rcases hPV : m.Position_valid with _ | pv <;>
  rcases hLat : m.Lat with _ | lat <;>
  rcases hLng : m.Lng with _ | lng <;>
  rcases hTr : m.Track with _ | tr <;>
  rcases hns : ac4.nspeed with _ | ns <;>
  rcases hDE : m.DistanceEstimated with _ | de <;>
  simp [classify_traffic, hPV, hLat, hLng, hTr, hns, hDE, apply_ite AcResult.track,
    apply_ite Track.last_contact_timestamp, apply_ite Track.height, apply_ite Track.vspeed,
    ite_self]

/-- Plumbing for a speed-valid report: the aircraft update is the
classification branch applied to the record with the shared fields and
`nspeed` updated. -/
lemma update_aircraft_classify_eq_speed (ctx : Ctx) (now : ℚ) (sit : Situation) (arc0 : ℕ)
    (is_new : Bool) (ac0 : Track) (m : RadarMsg) (age ala alt sp vv : ℚ)
    (hAge : m.Age = some age) (hALA : m.AgeLastAlt = some ala) (hAlt : m.Alt = some alt)
    (hSV : m.Speed_valid = some true) (hSp : m.Speed = some sp) (hVv : m.Vvel = some vv) :
    update_aircraft ctx now sit arc0 is_new ac0 m =
      classify_traffic ctx sit arc0 is_new (pythonRound ((alt - sit.own_altitude) / 100)) alt
        { ac0 with
          last_contact_timestamp := some (if age ≤ ala then now - age else now - ala),
          height := some (pythonRound ((alt - sit.own_altitude) / 100)),
          nspeed := some sp,
          vspeed := some vv } m := by
  simp only [update_aircraft, hAge, hALA, hAlt, hSV, hSp, hVv, eq_self_iff_true, if_true]

/-- A well-formed aircraft report always leaves the updated record with
`last_contact_timestamp`, `height` and `vspeed` present. -/
lemma update_aircraft_complete (ctx : Ctx) (now : ℚ) (sit : Situation) (arc0 : ℕ)
    (is_new : Bool) (ac0 : Track) (m : RadarMsg)
    (hAge : m.Age.isSome) (hALA : m.AgeLastAlt.isSome) (hAlt : m.Alt.isSome)
    (hSV : m.Speed_valid.isSome) (hSp : m.Speed_valid = some true → m.Speed.isSome)
    (hVv : m.Vvel.isSome) :
    trackComplete (update_aircraft ctx now sit arc0 is_new ac0 m).track := by
  obtain ⟨age, hage⟩ := Option.isSome_iff_exists.1 hAge
  obtain ⟨ala, hala⟩ := Option.isSome_iff_exists.1 hALA
  obtain ⟨alt, halt⟩ := Option.isSome_iff_exists.1 hAlt
  obtain ⟨sv, hsv⟩ := Option.isSome_iff_exists.1 hSV
  obtain ⟨vv, hvv⟩ := Option.isSome_iff_exists.1 hVv
  cases sv with
  | false =>
    rw [update_aircraft_classify_eq ctx now sit arc0 is_new ac0 m age ala alt vv
      hage hala halt hsv hvv]
    have hk := classify_keeps_shared ctx sit arc0 is_new
      (pythonRound ((alt - sit.own_altitude) / 100)) alt
      { ac0 with
        last_contact_timestamp := some (if age ≤ ala then now - age else now - ala),
        height := some (pythonRound ((alt - sit.own_altitude) / 100)),
        vspeed := some vv } m
    exact ⟨by rw [hk.1]; rfl, by rw [hk.2.1]; rfl, by rw [hk.2.2]; rfl⟩
  | true =>
    obtain ⟨sp, hsp⟩ := Option.isSome_iff_exists.1 (hSp hsv)
    rw [update_aircraft_classify_eq_speed ctx now sit arc0 is_new ac0 m age ala alt sp vv
      hage hala halt hsv hsp hvv]
    have hk := classify_keeps_shared ctx sit arc0 is_new
      (pythonRound ((alt - sit.own_altitude) / 100)) alt
      { ac0 with
        last_contact_timestamp := some (if age ≤ ala then now - age else now - ala),
        height := some (pythonRound ((alt - sit.own_altitude) / 100)),
        nspeed := some sp,
        vspeed := some vv } m
    exact ⟨by rw [hk.1]; rfl, by rw [hk.2.1]; rfl, by rw [hk.2.2]; rfl⟩

/-- C7: the eviction sweep computes `cutoff = now - 29` and (when every
track carries a timestamp, which `tracks_complete_invariant` guarantees)
removes exactly the tracks strictly older than the cutoff, keeps every other
track unchanged (same id, same record), sets the aircraft-changed dirty flag
whenever at least one track is removed, and touches nothing else of the
state. -/
theorem cutoff_sweep_exact (now : ℚ) (s : RadarState)
    (h : ∀ p ∈ s.all_ac, (Prod.snd p).last_contact_timestamp.isSome) :
    ∃ s', cutoff_sweep now s = Except.ok s' ∧
      (∀ p, p ∈ s'.all_ac ↔ p ∈ s.all_ac ∧
        ∀ ts, p.2.last_contact_timestamp = some ts → ¬ts < now - RADAR_CUTOFF) ∧
      ((∃ p ∈ s.all_ac, ∃ ts, p.2.last_contact_timestamp = some ts ∧ ts < now - RADAR_CUTOFF) →
        s'.aircraft_changed = true) ∧
      s'.situation = s.situation ∧ s'.last_arcposition = s.last_arcposition := by
  have hall : s.all_ac.all (fun p => p.2.last_contact_timestamp.isSome) = true := by
    rw [List.all_eq_true]; intro p hp; exact h p hp
  refine ⟨{ s with
      all_ac := s.all_ac.filter (fun p => !staleQ (now - RADAR_CUTOFF) p),
      aircraft_changed := s.aircraft_changed || s.all_ac.any (staleQ (now - RADAR_CUTOFF)) },
    by rw [cutoff_sweep, if_pos hall], ?_, ?_, rfl, rfl⟩
  · intro p
    rw [List.mem_filter]
    refine and_congr_right fun hp => ?_
    cases hts : p.2.last_contact_timestamp with
    | none => simp [staleQ, hts]
    | some ts => simp [staleQ, hts]
  · rintro ⟨p, hp, ts, hts, hlt⟩
    have hany : s.all_ac.any (staleQ (now - RADAR_CUTOFF)) = true :=
      List.any_eq_true.2 ⟨p, hp, by simp [staleQ, hts, hlt]⟩
    simp [hany]

/-- Witness for `cutoff_sweep_exact`: at `now = 100` the sweep of `stC7`
keeps the fresh track and drops the stale one. -/
theorem cutoff_sweep_exact_witness :
    (∀ p ∈ stC7.all_ac, (Prod.snd p).last_contact_timestamp.isSome) ∧
    (∃ s', cutoff_sweep 100 stC7 = Except.ok s' ∧
      (∀ p, p ∈ s'.all_ac ↔ p ∈ stC7.all_ac ∧
        ∀ ts, p.2.last_contact_timestamp = some ts → ¬ts < 100 - RADAR_CUTOFF) ∧
      ((∃ p ∈ stC7.all_ac, ∃ ts, p.2.last_contact_timestamp = some ts ∧
          ts < 100 - RADAR_CUTOFF) → s'.aircraft_changed = true) ∧
      s'.situation = stC7.situation ∧ s'.last_arcposition = stC7.last_arcposition) :=
  ⟨by decide, cutoff_sweep_exact 100 stC7 (by decide)⟩

/-- C10: field completeness. If every track in the table carries
`last_contact_timestamp`, `height` and `vspeed` (with `gps_distance` and
`was_spoken` present on every track by construction, set at creation), then
after ingesting any well-formed radar message the table still does, and the
eviction sweep succeeds (its read of `last_contact_timestamp` cannot fail)
and preserves completeness - so the sweep and the distance sort of the draw
routine never meet a track with a missing field. -/
theorem tracks_complete_invariant (ctx : Ctx) (now now2 : ℚ) (s : RadarState) (m : RadarMsg)
    (h1 : tracksComplete s.all_ac) (h2 : wfAircraftMsg m) :
    tracksComplete (new_traffic ctx now s m).state.all_ac ∧
    ∃ s', cutoff_sweep now2 s = Except.ok s' ∧ tracksComplete s'.all_ac := by
  constructor
  · simp only [new_traffic]
    by_cases hc : (m.RadarRange.isSome || m.RadarLimits.isSome) = true
    · rw [if_pos hc]
      rcases hrr : m.RadarRange with _ | rr
      · simp only [hrr]
        exact h1
      · rcases hrl : m.RadarLimits with _ | rl
        · simp only [hrr, hrl]
          intro p hp
          split_ifs at hp <;> exact h1 p hp
        · simp only [hrr, hrl]
          intro p hp
          split_ifs at hp <;> first
          | exact absurd hp (List.not_mem_nil p)
          | exact h1 p hp
    · rw [if_neg hc]
      rcases hic : m.Icao_addr with _ | icao
      · simp only [hic]
        exact h1
      · obtain ⟨hAge, hALA, hAlt, hSVs, hSp, hVv⟩ := h2 (by rw [hic]; rfl)
        have hcomp := update_aircraft_complete ctx now s.situation s.last_arcposition
          ((lookupTrack icao s.all_ac).isNone) ((lookupTrack icao s.all_ac).getD freshTrack) m
          hAge hALA hAlt hSVs hSp hVv
        simp only [hic]
        intro p hp
        by_cases hn : lookupTrack icao s.all_ac = none
        · rw [hn] at hp
          simp only [Option.isNone_none, if_true] at hp
          rw [setTrack_append_of_lookup_none hn] at hp
          rcases List.mem_append.1 hp with h | h
          · exact h1 p h
          · rw [List.mem_singleton.1 h]
            rw [hn] at hcomp
            exact hcomp
        · obtain ⟨t, ht⟩ := Option.ne_none_iff_exists'.1 hn
          rw [ht] at hp
          simp only [Option.isNone_some, Bool.false_eq_true, if_false] at hp
          rcases setTrack_mem hp with h | h
          · rw [h]
            rw [ht] at hcomp
            exact hcomp
          · exact h1 p h
  · have hall : s.all_ac.all (fun p => p.2.last_contact_timestamp.isSome) = true := by
      rw [List.all_eq_true]
      intro p hp
      exact (h1 p hp).1
    refine ⟨_, by rw [cutoff_sweep, if_pos hall], ?_⟩
    intro p hp
    exact h1 p (List.mem_filter.1 hp).1

/-- Witness for `tracks_complete_invariant`: the two-track fixture state
ingests a concrete ADS-B report and is swept at `now = 50`. -/
theorem tracks_complete_invariant_witness :
    (tracksComplete stC7.all_ac ∧ wfAircraftMsg (adsbMsg 1 2)) ∧
    (tracksComplete (new_traffic ctx0 0 stC7 (adsbMsg 1 2)).state.all_ac ∧
     ∃ s', cutoff_sweep 50 stC7 = Except.ok s' ∧ tracksComplete s'.all_ac) :=
  ⟨⟨by decide, by decide⟩,
    tracks_complete_invariant ctx0 0 50 stC7 (adsbMsg 1 2) (by decide) (by decide)⟩

lemma lookupTrack_setTrack_self (k : ℕ) (v : Track) (l : List (ℕ × Track)) :
    lookupTrack k (setTrack k v l) = (lookupTrack k l).map (fun _ => v) := by
  induction l with
  | nil => simp [lookupTrack, setTrack]
  | cons q rest ih =>
    obtain ⟨k', t⟩ := q
    by_cases hk : k' = k
    · rw [setTrack, if_pos hk, lookupTrack, if_pos hk, lookupTrack, if_pos hk]
      rfl
    · rw [setTrack, if_neg hk, lookupTrack, if_neg hk, lookupTrack, if_neg hk]
      exact ih

lemma lookupTrack_setTrack_ne {k' k : ℕ} (h : k' ≠ k) (v : Track) (l : List (ℕ × Track)) :
    lookupTrack k' (setTrack k v l) = lookupTrack k' l := by
  induction l with
  | nil => simp [lookupTrack, setTrack]
  | cons q rest ih =>
    obtain ⟨k'', t⟩ := q
    by_cases hk : k'' = k
    · have hne : ¬k'' = k' := fun hh => h (hh ▸ hk)
      rw [setTrack, if_pos hk, lookupTrack, if_neg hne, lookupTrack, if_neg hne]
    · rw [setTrack, if_neg hk, lookupTrack, lookupTrack]
      by_cases hk' : k'' = k'
      · rw [if_pos hk', if_pos hk']
      · rw [if_neg hk', if_neg hk']
        exact ih

lemma lookupTrack_append_single_ne {id k : ℕ} (h : id ≠ k) (v : Track)
    (l : List (ℕ × Track)) :
    lookupTrack id (l ++ [(k, v)]) = lookupTrack id l := by
  induction l with
  | nil =>
    rw [List.nil_append, lookupTrack, lookupTrack, if_neg (Ne.symm h)]
    rfl
  | cons q rest ih =>
    obtain ⟨k', t⟩ := q
    rw [List.cons_append, lookupTrack, lookupTrack]
    by_cases hk : k' = id
    · rw [if_pos hk, if_pos hk]
    · rw [if_neg hk, if_neg hk]
      exact ih

lemma classify_spoken_true (ctx : Ctx) (sit : Situation) (arc0 : ℕ) (is_new : Bool)
    (hgt : ℤ) (alt : ℚ) (ac4 : Track) (m : RadarMsg) (h : ac4.was_spoken = true) :
    (classify_traffic ctx sit arc0 is_new hgt alt ac4 m).alerts = [] ∧
    ((classify_traffic ctx sit arc0 is_new hgt alt ac4 m).track.was_spoken = true ∨
      sit.RadarRange * (3 / 4) ≤
        (classify_traffic ctx sit arc0 is_new hgt alt ac4 m).track.gps_distance) := by
  rcases hPV : m.Position_valid with _ | pv <;>
  rcases hLat : m.Lat with _ | lat <;>
  rcases hLng : m.Lng with _ | lng <;>
  rcases hTr : m.Track with _ | tr <;>
  rcases hns : ac4.nspeed with _ | ns <;>
  rcases hDE : m.DistanceEstimated with _ | de <;>
  constructor <;>
  simp [classify_traffic, hPV, hLat, hLng, hTr, hns, hDE, h, apply_ite AcResult.alerts,
    apply_ite AcResult.track, apply_ite Track.was_spoken, apply_ite Track.gps_distance,
    ite_self]
  all_goals try (
    by_cases hA : pv = true ∧ sit.gps_active = true
    · exact Or.inl (Or.inl hA)
    · by_cases hB : de = 0 ∨ alt = 0
      · exact Or.inl (Or.inr (Or.inl hB))
      · rcases le_total (de / 1852) (sit.RadarRange * (3 / 4)) with hle | hle
        · exact Or.inl (Or.inr (Or.inr (Or.inr hle)))
        · right
          rw [if_neg hA, if_neg hB]
          exact hle)
  all_goals try (
    by_cases hA : pv = true ∧ sit.gps_active = true
    · rcases lt_or_le (ctx.geo sit.latitude sit.longitude lat lng).1
        (sit.RadarRange * (3 / 4)) with hlt | hge
      · exact Or.inl (Or.inr (Or.inr (Or.inr hlt)))
      · right
        rw [if_pos hA]
        exact hge
    · rcases not_and_or.1 hA with hp | hg
      · exact Or.inl (Or.inl (Or.inl (Bool.eq_false_iff.2 hp)))
      · exact Or.inl (Or.inl (Or.inr (Bool.eq_false_iff.2 hg))))
  all_goals try (
    by_cases hA : pv = true ∧ sit.gps_active = true
    · simp only [if_pos hA]
      rcases lt_or_le (ctx.geo sit.latitude sit.longitude lat lng).1
        (sit.RadarRange * (3 / 4)) with hlt | hge
      · exact Or.inl (Or.inr (Or.inr hlt))
      · exact Or.inr hge
    · simp only [if_neg hA]
      by_cases hB : de = 0 ∨ alt = 0
      · exact Or.inl (Or.inl hB)
      · rcases le_total (de / 1852) (sit.RadarRange * (3 / 4)) with hle | hle
        · exact Or.inl (Or.inr (Or.inr hle))
        · simp only [if_neg hB]
          exact Or.inr hle)

lemma update_spoken_true (ctx : Ctx) (now : ℚ) (sit : Situation) (arc0 : ℕ)
    (is_new : Bool) (ac0 : Track) (m : RadarMsg) (h : ac0.was_spoken = true) :
    (update_aircraft ctx now sit arc0 is_new ac0 m).alerts = [] ∧
    ((update_aircraft ctx now sit arc0 is_new ac0 m).track.was_spoken = true ∨
      sit.RadarRange * (3 / 4) ≤
        (update_aircraft ctx now sit arc0 is_new ac0 m).track.gps_distance) := by
  rcases hAge : m.Age with _ | age
  · simp [update_aircraft, hAge, h]
  rcases hALA : m.AgeLastAlt with _ | ala
  · simp [update_aircraft, hAge, hALA, h]
  rcases hAlt : m.Alt with _ | alt
  · simp [update_aircraft, hAge, hALA, hAlt, h]
  rcases hSV : m.Speed_valid with _ | sv
  · simp [update_aircraft, hAge, hALA, hAlt, hSV, h]
  cases sv with
  | false =>
    rcases hVv : m.Vvel with _ | vv
    · simp [update_aircraft, hAge, hALA, hAlt, hSV, hVv, h]
    · rw [update_aircraft_classify_eq ctx now sit arc0 is_new ac0 m age ala alt vv
        hAge hALA hAlt hSV hVv]
      exact classify_spoken_true ctx sit arc0 is_new
        (pythonRound ((alt - sit.own_altitude) / 100)) alt _ m h
  | true =>
    rcases hSp : m.Speed with _ | sp
    · simp [update_aircraft, hAge, hALA, hAlt, hSV, hSp, h]
    rcases hVv : m.Vvel with _ | vv
    · simp [update_aircraft, hAge, hALA, hAlt, hSV, hSp, hVv, h]
    · rw [update_aircraft_classify_eq_speed ctx now sit arc0 is_new ac0 m age ala alt sp vv
        hAge hALA hAlt hSV hSp hVv]
      exact classify_spoken_true ctx sit arc0 is_new
        (pythonRound ((alt - sit.own_altitude) / 100)) alt _ m h

lemma new_traffic_spoken_step (ctx : Ctx) (now : ℚ) (s : RadarState) (m : RadarMsg)
    (id : ℕ) (t t1 : Track)
    (hl : lookupTrack id s.all_ac = some t) (hw : t.was_spoken = true)
    (hl1 : lookupTrack id (new_traffic ctx now s m).state.all_ac = some t1)
    (hd : t1.gps_distance < (new_traffic ctx now s m).state.situation.RadarRange * (3 / 4)) :
    t1.was_spoken = true ∧ (m.Icao_addr = some id → (new_traffic ctx now s m).alerts = []) := by
  by_cases hc : (m.RadarRange.isSome || m.RadarLimits.isSome) = true
  · have ha : (new_traffic ctx now s m).alerts = [] := by
      rcases hrr : m.RadarRange with _ | rr <;> rcases hrl : m.RadarLimits with _ | rl
      · exact absurd hc (by simp [hrr, hrl])
      · simp [new_traffic, hc, hrr, hrl]
      · simp [new_traffic, hc, hrr, hrl]
      · simp [new_traffic, hc, hrr, hrl]
    have hs : (new_traffic ctx now s m).state.all_ac = [] ∨
        (new_traffic ctx now s m).state.all_ac = s.all_ac := by
      rcases hrr : m.RadarRange with _ | rr <;> rcases hrl : m.RadarLimits with _ | rl
      · exact absurd hc (by simp [hrr, hrl])
      · simp [new_traffic, hc, hrr, hrl]
        try (split_ifs <;> simp)
      · simp [new_traffic, hc, hrr, hrl]
        try (split_ifs <;> simp)
      · simp [new_traffic, hc, hrr, hrl]
        try (split_ifs <;> simp)
    rcases hs with hs | hs
    · rw [hs, lookupTrack] at hl1
      exact absurd hl1 (by simp)
    · rw [hs, hl] at hl1
      exact ⟨Option.some.inj hl1 ▸ hw, fun _ => ha⟩
  · rcases hic : m.Icao_addr with _ | icao
    · have hs : (new_traffic ctx now s m).state.all_ac = s.all_ac := by
        simp [new_traffic, hc, hic]
      rw [hs, hl] at hl1
      exact ⟨Option.some.inj hl1 ▸ hw, fun hh => by simp [hic] at hh⟩
    · simp only [new_traffic, Bool.not_eq_true] at hl1 hd
      rw [if_neg hc] at hl1 hd
      simp only [hic] at hl1 hd
      by_cases hid : icao = id
      · subst hid
        rw [hl] at hl1
        simp only [Option.isNone_some, Bool.false_eq_true, if_false] at hl1
        rw [lookupTrack_setTrack_self, hl, Option.map_some'] at hl1
        have hr := update_spoken_true ctx now s.situation s.last_arcposition
          (some t).isNone ((some t).getD freshTrack) m hw
        have ha : (new_traffic ctx now s m).alerts =
            (update_aircraft ctx now s.situation s.last_arcposition
              (some t).isNone ((some t).getD freshTrack) m).alerts := by
          simp only [new_traffic]
          rw [if_neg hc]
          simp only [hic, hl]
        rcases hr.2 with hflag | hge
        · exact ⟨Option.some.inj hl1 ▸ hflag, fun _ => by rw [ha]; exact hr.1⟩
        · rw [← Option.some.inj hl1] at hd
          exact absurd hd (not_lt.2 hge)
      · rw [lookupTrack_setTrack_ne (fun hh => hid hh.symm)] at hl1
        split_ifs at hl1 with hnew
        · rw [lookupTrack_append_single_ne (fun hh => hid hh.symm), hl] at hl1
          exact ⟨Option.some.inj hl1 ▸ hw,
            fun hh => absurd (Option.some.inj (hic ▸ hh)) hid⟩
        · rw [hl] at hl1
          exact ⟨Option.some.inj hl1 ▸ hw,
            fun hh => absurd (Option.some.inj (hic ▸ hh)) hid⟩

/-- C1 (amended): alert hysteresis, on both ingest paths. Once `was_spoken`
is true for a track, then along any further sequence of radar messages
during which the track stays present and its `gps_distance` stays strictly
below three-quarters of the configured range, no alert is spoken for that
track and the flag stays true. Consequently a re-alert requires the
distance to have reached at least three-quarters of the range (the ADS-B
path resets at `distance >= 0.75*range`, when also within range and
altitude limits; the Mode-S path resets only at strictly greater) - not to
have strictly exceeded it, as the counterexample shows, and the track must
survive (a range/limits change empties the table and so forgets the
flag). -/
theorem alert_hysteresis_suppressed (ctx : Ctx) (id : ℕ) :
    ∀ (ms : List TimedMsg) (s : RadarState) (t : Track),
      lookupTrack id s.all_ac = some t → t.was_spoken = true →
      (∀ p ∈ runTrace ctx s ms, ∃ t', lookupTrack id p.2.state.all_ac = some t' ∧
        t'.gps_distance < p.2.state.situation.RadarRange * (3 / 4)) →
      ∀ p ∈ runTrace ctx s ms,
        (p.1.msg.Icao_addr = some id → p.2.alerts = []) ∧
        ∀ t', lookupTrack id p.2.state.all_ac = some t' → t'.was_spoken = true := by
  intro ms
  induction ms with
  | nil =>
    intro s t _ _ _ p hp
    simp [runTrace] at hp
  | cons tm rest ih =>
    intro s t hl hw hrun p hp
    obtain ⟨t1, hl1, hd1⟩ := hrun (tm, new_traffic ctx tm.now s tm.msg) (by simp [runTrace])
    have hstep := new_traffic_spoken_step ctx tm.now s tm.msg id t t1 hl hw hl1 hd1
    simp only [runTrace, List.mem_cons] at hp
    rcases hp with hq | hq
    · rw [hq]
      constructor
      · exact fun hicm => hstep.2 hicm
      · intro t' hlt'
        rw [hl1] at hlt'
        exact Option.some.inj hlt' ▸ hstep.1
    · have hrun' : ∀ q ∈ runTrace ctx (new_traffic ctx tm.now s tm.msg).state rest,
          ∃ t', lookupTrack id q.2.state.all_ac = some t' ∧
            t'.gps_distance < q.2.state.situation.RadarRange * (3 / 4) :=
        fun q hq2 => hrun q (by simp only [runTrace, List.mem_cons]; exact Or.inr hq2)
      exact ih (new_traffic ctx tm.now s tm.msg).state t1 hl1 hstep.1 hrun' p hq

/-- C1 counterexample: with range 4 nm, a track alerts at 2 nm, moves out
to exactly 3 nm (= three-quarters of range, which resets `was_spoken` via
the `>=` test at line 237) and alerts again at 2 nm - its `gps_distance`
never strictly exceeded three-quarters of the range at any step, so the
claim as stated ("until gps_distance has exceeded three-quarters") is
false on the ADS-B path. -/
theorem alert_hysteresis_strict_counterexample :
    ((runTrace ctx0 st0 seqC1).map (fun p => p.2.alerts.length) = [1, 0, 1]) ∧
    ((runTrace ctx0 st0 seqC1).map (fun p => p.1.msg.Icao_addr) =
      [some 1, some 1, some 1]) ∧
    ((runTrace ctx0 st0 seqC1).map
        (fun p => (lookupTrack 1 p.2.state.all_ac).map
          (fun t => decide (p.2.state.situation.RadarRange * (3 / 4) < t.gps_distance))) =
      [some false, some false, some false]) := by
  with_unfolding_all decide

/-- Witness for `alert_hysteresis_suppressed`: the already-spoken track
receives one further report at 1 nm; no alert fires. -/
theorem alert_hysteresis_suppressed_witness :
    (lookupTrack 9 stW1.all_ac = some tSpokenW ∧ tSpokenW.was_spoken = true ∧
      (∀ p ∈ runTrace ctx0 stW1 seqW1, ∃ t', lookupTrack 9 p.2.state.all_ac = some t' ∧
        t'.gps_distance < p.2.state.situation.RadarRange * (3 / 4))) ∧
    (∀ p ∈ runTrace ctx0 stW1 seqW1,
      (p.1.msg.Icao_addr = some 9 → p.2.alerts = []) ∧
      ∀ t', lookupTrack 9 p.2.state.all_ac = some t' → t'.was_spoken = true) := by
  have hyp : ∀ p ∈ runTrace ctx0 stW1 seqW1, ∃ t', lookupTrack 9 p.2.state.all_ac = some t' ∧
      t'.gps_distance < p.2.state.situation.RadarRange * (3 / 4) := by
    intro p hp
    simp only [runTrace, List.mem_singleton] at hp
    subst hp
    exact ⟨tAfterW, by with_unfolding_all decide, by with_unfolding_all decide⟩
  exact ⟨⟨by with_unfolding_all decide, rfl, hyp⟩,
    alert_hysteresis_suppressed ctx0 9 seqW1 stW1 tSpokenW (by with_unfolding_all decide) rfl hyp⟩

/-- `pythonRoundR` never moves a value by more than `1/2`. -/
lemma pythonRoundR_close (x : ℝ) : |((pythonRoundR x : ℤ) : ℝ) - x| ≤ 1 / 2 := by
  have hfl := Int.floor_add_fract x
  rw [pythonRoundR]
  split_ifs with h1 h2
  · rw [abs_le]
    constructor <;> linarith
  · push_cast
    rw [abs_le]
    constructor <;> linarith
  · rw [abs_sub_comm]
    exact abs_sub_round x

/-- Reverse triangle inequality for the Euclidean norm on the plane, stated
through `Real.sqrt` of sums of squares. -/
lemma sqrt_sum_sq_sub_le (a b u v : ℝ) :
    |Real.sqrt ((a + u) ^ 2 + (b + v) ^ 2) - Real.sqrt (a ^ 2 + b ^ 2)| ≤
      Real.sqrt (u ^ 2 + v ^ 2) := by
  have habs : ∀ x y : ℝ, Complex.abs ⟨x, y⟩ = Real.sqrt (x ^ 2 + y ^ 2) := by
    intro x y
    rw [Complex.abs_apply, Complex.normSq_mk]
    ring_nf
  have h := Complex.abs.abs_abv_sub_le_abv_sub (⟨a + u, b + v⟩ : ℂ) (⟨a, b⟩ : ℂ)
  have hsub : ((⟨a + u, b + v⟩ : ℂ) - (⟨a, b⟩ : ℂ)) = (⟨u, v⟩ : ℂ) := by
    apply Complex.ext <;> simp
  rw [hsub, habs, habs, habs] at h
  exact h

/-- The distance component of `calc_gps_distance` is a square root, hence
nonnegative. -/
lemma calc_gps_distance_fst_nonneg (a b c d : ℝ) : 0 ≤ (calc_gps_distance a b c d).1 := by
  unfold calc_gps_distance
  exact Real.sqrt_nonneg _

/-- For any nonnegative distance `d` and angle `A`, the projected point of
lines 216-221 lies within `√2/2` pixels (the diagonal of the rounding cell) of
the circle of radius `K/2 * d / range` around the screen centre. -/
lemma projected_dist_bound (K zerox zeroy range d A : ℝ)
    (hK : 0 ≤ K) (hr : 0 < range) (hdnn : 0 ≤ d) :
    |Real.sqrt ((((project_xy K zerox zeroy range d A).1 : ℝ) - zerox) ^ 2 +
        (((project_xy K zerox zeroy range d A).2 : ℝ) - zeroy) ^ 2) -
      K / 2 * d / range| ≤ Real.sqrt 2 / 2 := by
  have hpy : Real.sin (A * Real.pi / 180) ^ 2 + Real.cos (A * Real.pi / 180) ^ 2 = 1 :=
    Real.sin_sq_add_cos_sq _
  set s := Real.sin (A * Real.pi / 180) with hsdef
  set c := Real.cos (A * Real.pi / 180) with hcdef
  set r := K / 2 * d / range with hrdef
  have hrnn : 0 ≤ r := div_nonneg (mul_nonneg (div_nonneg hK (by norm_num)) hdnn) hr.le
  have hx : ((project_xy K zerox zeroy range d A).1 : ℝ) =
      ((pythonRoundR (K / 2 * (s * d) / range + zerox) : ℤ) : ℝ) := rfl
  have hy : ((project_xy K zerox zeroy range d A).2 : ℝ) =
      ((pythonRoundR (K / 2 * (-c * d) / range + zeroy) : ℤ) : ℝ) := rfl
  have hargx : K / 2 * (s * d) / range + zerox = r * s + zerox := by rw [hrdef]; ring
  have hargy : K / 2 * (-c * d) / range + zeroy = -(r * c) + zeroy := by rw [hrdef]; ring
  have hu := pythonRoundR_close (K / 2 * (s * d) / range + zerox)
  have hv := pythonRoundR_close (K / 2 * (-c * d) / range + zeroy)
  rw [hargx] at hu hx
  rw [hargy] at hv hy
  rw [hx, hy]
  set px := ((pythonRoundR (r * s + zerox) : ℤ) : ℝ) with hpx
  set py := ((pythonRoundR (-(r * c) + zeroy) : ℤ) : ℝ) with hpyy
  have h1 : r * s + (px - zerox - r * s) = px - zerox := by ring
  have h2 : -(r * c) + (py - zeroy + r * c) = py - zeroy := by ring
  have hub : |px - zerox - r * s| ≤ 1 / 2 := by
    have he : px - zerox - r * s = px - (r * s + zerox) := by ring
    rw [he]
    exact hu
  have hvb : |py - zeroy + r * c| ≤ 1 / 2 := by
    have he : py - zeroy + r * c = py - (-(r * c) + zeroy) := by ring
    rw [he]
    exact hv
  have hry : Real.sqrt ((r * s) ^ 2 + (-(r * c)) ^ 2) = r := by
    have h3 : (r * s) ^ 2 + (-(r * c)) ^ 2 = r ^ 2 := by
      calc (r * s) ^ 2 + (-(r * c)) ^ 2 = r ^ 2 * (s ^ 2 + c ^ 2) := by ring
        _ = r ^ 2 := by rw [hpy]; ring
    rw [h3, Real.sqrt_sq hrnn]
  have key := sqrt_sum_sq_sub_le (r * s) (-(r * c)) (px - zerox - r * s) (py - zeroy + r * c)
  rw [hry, h1, h2] at key
  have h4 : Real.sqrt ((px - zerox - r * s) ^ 2 + (py - zeroy + r * c) ^ 2) ≤
      Real.sqrt ((1 / 2) ^ 2 + (1 / 2) ^ 2) := by
    apply Real.sqrt_le_sqrt
    nlinarith [hub, hvb, sq_abs (px - zerox - r * s), sq_abs (py - zeroy + r * c),
      abs_nonneg (px - zerox - r * s), abs_nonneg (py - zeroy + r * c)]
  have h5 : Real.sqrt (((1 : ℝ) / 2) ^ 2 + (1 / 2) ^ 2) = Real.sqrt 2 / 2 := by
    rw [show ((1 : ℝ) / 2) ^ 2 + (1 / 2) ^ 2 = 2 / 4 by norm_num,
      Real.sqrt_div (by norm_num : (0 : ℝ) ≤ 2),
      show (4 : ℝ) = 2 ^ 2 by norm_num,
      Real.sqrt_sq (by norm_num : (0 : ℝ) ≤ 2)]
  exact key.trans (h4.trans_eq h5)

/-- C9: for every valid-position report (any own position, target position and
course), the stored screen coordinates are the deterministic function
`project_xy` of own course, own position, target position and configured
range, and their Euclidean distance to the screen centre equals
`max_pixel/2 * gps_distance / RadarRange` up to projection rounding (within
`√2/2` of a pixel, the worst case of rounding each coordinate by `1/2`). -/
theorem screen_projection_distance (sitLat sitLng lat lng course zerox zeroy K range : ℝ)
    (hK : 0 ≤ K) (hr : 0 < range) :
    |Real.sqrt
        ((((project_xy K zerox zeroy range (calc_gps_distance sitLat sitLng lat lng).1
            ((calc_gps_distance sitLat sitLng lat lng).2 - course)).1 : ℝ) - zerox) ^ 2 +
          (((project_xy K zerox zeroy range (calc_gps_distance sitLat sitLng lat lng).1
            ((calc_gps_distance sitLat sitLng lat lng).2 - course)).2 : ℝ) - zeroy) ^ 2) -
      K / 2 * (calc_gps_distance sitLat sitLng lat lng).1 / range| ≤ Real.sqrt 2 / 2 :=
  projected_dist_bound K zerox zeroy range _ _ hK hr (calc_gps_distance_fst_nonneg _ _ _ _)

/-- Witness for C9 at concrete inputs (all-zero geodata, `K = 1`, range 1). -/
theorem screen_projection_distance_witness :
    ((0 : ℝ) ≤ 1 ∧ (0 : ℝ) < 1) ∧
    |Real.sqrt
        ((((project_xy 1 0 0 1 (calc_gps_distance 0 0 0 0).1
            ((calc_gps_distance 0 0 0 0).2 - 0)).1 : ℝ) - 0) ^ 2 +
          (((project_xy 1 0 0 1 (calc_gps_distance 0 0 0 0).1
            ((calc_gps_distance 0 0 0 0).2 - 0)).2 : ℝ) - 0) ^ 2) -
      1 / 2 * (calc_gps_distance 0 0 0 0).1 / 1| ≤ Real.sqrt 2 / 2 :=
  ⟨⟨by norm_num, by norm_num⟩,
    screen_projection_distance 0 0 0 0 0 0 0 1 1 (by norm_num) (by norm_num)⟩

end StratuxRadar
